import Mathlib

/-
  Verification development for the sparse-grid token game (final iteration of
  the source, the file defining `modifiedCaches`, single-slot `inventory` and
  the `hasCrafted` win flag).

  Modelling conventions:
  * Cell identities are integer pairs, values are integers (the source only
    ever produces integer token values).
  * Continuous latitude/longitude positions are rationals; the source's
    floating-point arithmetic on coordinates is modelled by exact rational
    arithmetic.
  * The string-keyed JavaScript `Map`s become functions with pointwise update:
    `modifiedCaches` maps a cell to `none` (no overlay entry),
    `some none` (explicitly emptied) or `some (some v)` (token of value v),
    mirroring the source's `Map<string, number | null>`; `caches` maps a cell
    to the value of its materialized cache marker, if any.
-/

namespace D3Game

/-- Size of a tile in degrees (`TILE_DEGREES = 1e-4` in the source). -/
def TILE_DEGREES : ℚ := 1 / 10000

/-- Latitude of the grid origin (`CLASSROOM_LATLNG.lat = 36.997936938057016`). -/
def CLASSROOM_LAT : ℚ := 36997936938057016 / 1000000000000000

/-- Longitude of the grid origin (`CLASSROOM_LATLNG.lng = -122.05703507501151`). -/
def CLASSROOM_LNG : ℚ := -12205703507501151 / 100000000000000

/-- Chance a given cell contains a cache (`CACHE_SPAWN_PROBABILITY = 0.1`). -/
def CACHE_SPAWN_PROBABILITY : ℚ := 1 / 10

/-- How many cells away (inclusive) the player can interact with a cache
(`PROXIMITY_CELLS = 1` in the final iteration). -/
def PROXIMITY_CELLS : ℤ := 1

/-- Value required on a single cache to win (`WIN_THRESHOLD = 5`). -/
def WIN_THRESHOLD : ℤ := 5

/-- A cell identity: the integer pair `(i, j)`. -/
abbrev Cell := ℤ × ℤ

/-- Chebyshev distance between two cells, from the source's `cellDistance`:
`Math.max(Math.abs(a[0] - b[0]), Math.abs(a[1] - b[1]))`. -/
def cellDistance (a b : Cell) : ℤ :=
  max |a.1 - b.1| |a.2 - b.2|

/-- Modelled from the spec: the deterministic randomness helper `_luck.ts` is
imported by the source but is not part of the given source files.  Per the
spec it is a pure function hashing a string to a number in `[0,1)`; we model
it as an arbitrary function from strings to rationals, passed explicitly so
that purity (same input, same output) is captured by the function type. -/
abbrev LuckFn := String → ℚ

/-- The luck key for the spawn decision, `[i, j].toString()` = `"i,j"`. -/
def presenceKey (i j : ℤ) : String :=
  toString i ++ "," ++ toString j

/-- The luck key for the initial value, `[i, j, "initialValue"].toString()`. -/
def valueKey (i j : ℤ) : String :=
  toString i ++ "," ++ toString j ++ ",initialValue"

/-- The tiered initial value of a baseline cache, from `drawCell`:
`r < 0.6 → 1`, `r < 0.9 → 2`, `r < 0.97 → 3`, `r < 0.995 → 4`, else `5`. -/
def initialCacheValue (luck : LuckFn) (i j : ℤ) : ℤ :=
  let r := luck (valueKey i j)
  if r < 6 / 10 then 1
  else if r < 9 / 10 then 2
  else if r < 97 / 100 then 3
  else if r < 995 / 1000 then 4
  else 5

/-- The deterministic baseline generator, from the default branch of
`drawCell`: a cache spawns iff `luck("i,j") < CACHE_SPAWN_PROBABILITY`, with
the tiered initial value. -/
def generate (luck : LuckFn) (i j : ℤ) : Option ℤ :=
  if luck (presenceKey i j) < CACHE_SPAWN_PROBABILITY then
    some (initialCacheValue luck i j)
  else
    none

/-- The mutation overlay (`modifiedCaches` in the source): `none` means no
entry (defer to baseline), `some none` means explicitly emptied, and
`some (some v)` means a player-written token of value `v`. -/
abbrev Overlay := Cell → Option (Option ℤ)

/-- `modifiedCaches.set(key, v)`: pointwise update of the overlay. -/
def setOverlay (m : Overlay) (c : Cell) (v : Option ℤ) : Overlay :=
  fun x => if x = c then some v else m x

/-- The cell state resolver, distilled from the branch structure of
`drawCell`: an overlay entry is authoritative (`some v` renders a cache of
value `v`, `null` renders the emptied cell), otherwise the baseline
generator decides. -/
def resolve (luck : LuckFn) (m : Overlay) (c : Cell) : Option ℤ :=
  match m c with
  | some (some v) => some v
  | some none => none
  | none => generate luck c.1 c.2

/-- The materialized cache markers (`caches` in the source), keyed by cell,
holding the rendered value. -/
abbrev CacheMap := Cell → Option ℤ

/-- `caches.set(key, {value})`. -/
def setCache (cs : CacheMap) (c : Cell) (v : ℤ) : CacheMap :=
  fun x => if x = c then some v else cs x

/-- `caches.delete(key)` (also used for `marker.remove()` cleanup). -/
def delCache (cs : CacheMap) (c : Cell) : CacheMap :=
  fun x => if x = c then none else cs x

/-- The mutable game state of the source file: the single-slot `inventory`,
the persistent `modifiedCaches` overlay, the transient `caches` markers, the
set of rendered `cellRecords`, and the one-shot `hasCrafted` win flag. -/
structure GameState where
  inventory : Option ℤ
  modifiedCaches : Overlay
  caches : CacheMap
  cellRecords : Finset Cell
  hasCrafted : Bool

/-- The rejection taxonomy for pickup/place/drop requests.  `tooFar` carries
the measured distance that the source interpolates into its message. -/
inductive Reject where
  | tooFar (dist : ℤ)
  | alreadyCarrying
  | nothingCarried
  | valueMismatch
  | noCacheHere
  deriving DecidableEq

/-- The pickup click handler (identical in all three popup variants of
`drawCell`): within proximity and with an empty inventory it removes the
cache marker, stores the value in the inventory and records
`modifiedCaches.set(key, null)`; otherwise it reports a message and leaves
the state alone.  The source binds this handler only to an existing cache
marker; a request targeting a cell without a materialized cache is modelled
from the spec's taxonomy as the rejection `noCacheHere`. -/
def pickupRequest (s : GameState) (player c : Cell) : Option Reject × GameState :=
  match s.caches c with
  | none => (some Reject.noCacheHere, s)
  | some v =>
    if cellDistance player c ≤ PROXIMITY_CELLS then
      if s.inventory = none then
        (none,
          { s with
            caches := delCache s.caches c
            inventory := some v
            modifiedCaches := setOverlay s.modifiedCaches c none })
      else
        (some Reject.alreadyCarrying, s)
    else
      (some (Reject.tooFar (cellDistance player c)), s)

/-- The place click handler (identical in all three popup variants of
`drawCell`): checks distance first, then that something is carried, then that
the carried value equals the resident value; on success it doubles the
resident value, persists it in the overlay, empties the inventory, and runs
`triggerWin` when `!hasCrafted && value >= WIN_THRESHOLD`.  As with pickup,
the handler only exists on a materialized cache; the cacheless case is
modelled from the spec's taxonomy as `noCacheHere`. -/
def placeRequest (s : GameState) (player c : Cell) : Option Reject × GameState :=
  match s.caches c with
  | none => (some Reject.noCacheHere, s)
  | some w =>
    if PROXIMITY_CELLS < cellDistance player c then
      (some (Reject.tooFar (cellDistance player c)), s)
    else
      match s.inventory with
      | none => (some Reject.nothingCarried, s)
      | some v =>
        if v = w then
          (none,
            { s with
              caches := setCache s.caches c (w * 2)
              modifiedCaches := setOverlay s.modifiedCaches c (some (w * 2))
              inventory := none
              hasCrafted :=
                if s.hasCrafted = false ∧ WIN_THRESHOLD ≤ w * 2 then true
                else s.hasCrafted })
        else
          (some Reject.valueMismatch, s)

/-- The drop click handler that `drawCell` binds to an explicitly-emptied
cell (`modified === null`): within proximity and carrying a token it creates
a cache marker with the carried value, records
`modifiedCaches.set(key, val)`, and empties the inventory. -/
def dropRequest (s : GameState) (player c : Cell) : Option Reject × GameState :=
  if PROXIMITY_CELLS < cellDistance player c then
    (some (Reject.tooFar (cellDistance player c)), s)
  else
    match s.inventory with
    | none => (some Reject.nothingCarried, s)
    | some v =>
      (none,
        { s with
          caches := setCache s.caches c v
          modifiedCaches := setOverlay s.modifiedCaches c (some v)
          inventory := none })

/-- `removeCell`: eviction of a cell leaving the viewport.  Removes the cell
record and any rendered cache marker; the overlay is untouched.  Both
removals ignore an already-absent entry. -/
def removeCell (s : GameState) (c : Cell) : GameState :=
  { s with
    cellRecords := s.cellRecords.erase c
    caches := delCache s.caches c }

/-- The state effect of `drawCell`: resolve the cell and, when a cache is
present, register the marker in `caches`. -/
def drawCellState (luck : LuckFn) (s : GameState) (c : Cell) : GameState :=
  match resolve luck s.modifiedCaches c with
  | some v => { s with caches := setCache s.caches c v }
  | none => s

/-- `cellRendered`: materialize the cell unless a record already exists. -/
def cellRendered (luck : LuckFn) (s : GameState) (c : Cell) : GameState :=
  if c ∈ s.cellRecords then s
  else { drawCellState luck s c with cellRecords := insert c s.cellRecords }

/-- Per-axis quantization of the player position, from `latLngToCell`:
`Math.round((position - origin) / TILE_DEGREES)`. -/
def axisCell (origin pos : ℚ) : ℤ :=
  round ((pos - origin) / TILE_DEGREES)

/-- `latLngToCell`: the player's cell, rounding on both axes. -/
def latLngToCell (lat lng : ℚ) : Cell :=
  (axisCell CLASSROOM_LAT lat, axisCell CLASSROOM_LNG lng)

/-- Per-axis quantization of viewport bounds, from `updateVisibleCells`:
`Math.floor((bound - origin) / TILE_DEGREES)`. -/
def axisFloor (origin pos : ℚ) : ℤ :=
  Int.floor ((pos - origin) / TILE_DEGREES)

/-- The rectangle drawn for cell index `i` spans
`[origin + i * TILE_DEGREES, origin + (i + 1) * TILE_DEGREES]` on each axis
(from the bounds computed by `drawCell`); this predicate is that span's
containment test on one axis. -/
def cellBoundsContain (origin : ℚ) (i : ℤ) (pos : ℚ) : Prop :=
  origin + (i : ℚ) * TILE_DEGREES ≤ pos ∧ pos ≤ origin + ((i + 1 : ℤ) : ℚ) * TILE_DEGREES

/-- The set of wanted cells of `updateVisibleCells`: all `(i, j)` with
`southMin ≤ i ≤ northMax` and `westMin ≤ j ≤ eastMax`, the bounds obtained by
flooring the viewport edges. -/
def wantedCells (south north west east : ℚ) : Finset Cell :=
  Finset.Icc (axisFloor CLASSROOM_LAT south) (axisFloor CLASSROOM_LAT north) ×ˢ
    Finset.Icc (axisFloor CLASSROOM_LNG west) (axisFloor CLASSROOM_LNG east)

/-- `updateVisibleCells` as a set computation: starting from the previously
rendered records, render every wanted cell that has no record yet
(`entered`), then remove every record that is not wanted (`left`).  Returns
(records after the update, entered, left). -/
def updateVisibleCells (prev : Finset Cell) (south north west east : ℚ) :
    Finset Cell × Finset Cell × Finset Cell :=
  let wanted := wantedCells south north west east
  let entered := wanted \ prev
  let afterAdd := prev ∪ wanted
  let left := afterAdd \ wanted
  (afterAdd \ left, entered, left)

/-- A user-initiated or viewport-driven operation on the game state. -/
inductive Action where
  | pickup (player c : Cell)
  | place (player c : Cell)
  | drop (player c : Cell)
  | evict (c : Cell)
  | materialize (c : Cell)

/-- Apply one operation to the state (discarding any rejection report). -/
def applyAction (luck : LuckFn) (s : GameState) : Action → GameState
  | Action.pickup p c => (pickupRequest s p c).2
  | Action.place p c => (placeRequest s p c).2
  | Action.drop p c => (dropRequest s p c).2
  | Action.evict c => removeCell s c
  | Action.materialize c => cellRendered luck s c

/-- Run a sequence of operations. -/
def runActions (luck : LuckFn) (s : GameState) (acts : List Action) : GameState :=
  acts.foldl (applyAction luck) s

/-- The spec's `CellContent` codomain of the resolver. -/
inductive CellContent where
  | noCache
  | cache (v : ℤ)
  deriving DecidableEq

/-- Modelled from the spec (for comparison with the source-derived
`resolve`): "if the Overlay has an entry for `cellId`, its value
(`ExplicitlyEmpty → NoCache`, `Token(v) → Cache(v)`) is authoritative and the
Generator is not consulted. Otherwise, the Generator's output for `cellId` is
authoritative." -/
def resolveSpec (luck : LuckFn) (m : Overlay) (c : Cell) : CellContent :=
  match m c with
  | some none => CellContent.noCache
  | some (some v) => CellContent.cache v
  | none =>
    match generate luck c.1 c.2 with
    | none => CellContent.noCache
    | some v => CellContent.cache v

/-- Read an optional resident value as the spec's `CellContent`. -/
def toCellContent : Option ℤ → CellContent
  | none => CellContent.noCache
  | some v => CellContent.cache v

theorem hasCrafted_applyAction (luck : LuckFn) (s : GameState) (a : Action)
    (h : s.hasCrafted = true) : (applyAction luck s a).hasCrafted = true := by
  cases a with
  | pickup p c =>
    show (pickupRequest s p c).2.hasCrafted = true
    unfold pickupRequest
    split
    · exact h
    · split
      · split
        · exact h
        · exact h
      · exact h
  | place p c =>
    show (placeRequest s p c).2.hasCrafted = true
    unfold placeRequest
    split
    · exact h
    · split
      · exact h
      · split
        · exact h
        · split
          · show (if s.hasCrafted = false ∧ _ then true else s.hasCrafted) = true
            split
            · rfl
            · exact h
          · exact h
  | drop p c =>
    show (dropRequest s p c).2.hasCrafted = true
    unfold dropRequest
    split
    · exact h
    · split
      · exact h
      · exact h
  | evict c =>
    exact h
  | materialize c =>
    show (cellRendered luck s c).hasCrafted = true
    unfold cellRendered drawCellState
    split
    · exact h
    · split
      · exact h
      · exact h

theorem hasCrafted_runActions (luck : LuckFn) (acts : List Action) :
    ∀ s : GameState, s.hasCrafted = true → (runActions luck s acts).hasCrafted = true := by
  induction acts with
  | nil => intro s h; exact h
  | cons a as ih =>
    intro s h
    exact ih (applyAction luck s a) (hasCrafted_applyAction luck s a h)

theorem removeCell_modifiedCaches (s : GameState) (c : Cell) :
    (removeCell s c).modifiedCaches = s.modifiedCaches := rfl

theorem cellRendered_modifiedCaches (luck : LuckFn) (s : GameState) (c : Cell) :
    (cellRendered luck s c).modifiedCaches = s.modifiedCaches := by
  unfold cellRendered drawCellState
  split
  · rfl
  · split
    · rfl
    · rfl

/-- C3: for every cell identity, resolution makes an overlay entry
authoritative (`ExplicitlyEmpty` yields no cache, `Token(v)` yields a cache
of value `v`) without consulting the generator (the result does not depend on
the luck function), and with no overlay entry the generator's output is
authoritative; in all cases the source's resolution agrees with the spec's
resolver wording. -/
theorem claim_C3 (luck luck2 : LuckFn) (m m2 : Overlay) (c c2 : Cell) (e : Option ℤ)
    (hentry : m c = some e) (habsent : m2 c2 = none) :
    toCellContent (resolve luck m c) = resolveSpec luck m c ∧
    toCellContent (resolve luck m2 c2) = resolveSpec luck m2 c2 ∧
    resolve luck m c = e ∧
    resolve luck m c = resolve luck2 m c ∧
    resolve luck m2 c2 = generate luck c2.1 c2.2 := by
  have hagree : ∀ (lk : LuckFn) (ov : Overlay) (x : Cell),
      toCellContent (resolve lk ov x) = resolveSpec lk ov x := by
    intro lk ov x
    unfold resolve resolveSpec toCellContent
    match hx : ov x with
    | some (some v) => rfl
    | some none => rfl
    | none =>
      match generate lk x.1 x.2 with
      | some v => rfl
      | none => rfl
  refine ⟨hagree luck m c, hagree luck m2 c2, ?_, ?_, ?_⟩
  · unfold resolve
    rw [hentry]
    match e with
    | some v => rfl
    | none => rfl
  · unfold resolve
    rw [hentry]
    match e with
    | some v => rfl
    | none => rfl
  · unfold resolve
    rw [habsent]

theorem claim_C3_witness :
    ((fun x : Cell => if x = (0, 0) then some (some 4) else none) (0, 0) =
        some (some (4 : ℤ)) ∧
      (fun x : Cell => if x = (0, 0) then some (some (4 : ℤ)) else none) (1, 1) = none) ∧
    (toCellContent
        (resolve (fun _ => 0) (fun x : Cell => if x = (0, 0) then some (some 4) else none) (0, 0)) =
      resolveSpec (fun _ => 0) (fun x : Cell => if x = (0, 0) then some (some 4) else none) (0, 0) ∧
    toCellContent
        (resolve (fun _ => 0) (fun x : Cell => if x = (0, 0) then some (some 4) else none) (1, 1)) =
      resolveSpec (fun _ => 0) (fun x : Cell => if x = (0, 0) then some (some 4) else none) (1, 1) ∧
    resolve (fun _ => 0) (fun x : Cell => if x = (0, 0) then some (some 4) else none) (0, 0) =
      some 4 ∧
    resolve (fun _ => 0) (fun x : Cell => if x = (0, 0) then some (some 4) else none) (0, 0) =
      resolve (fun _ => 1) (fun x : Cell => if x = (0, 0) then some (some 4) else none) (0, 0) ∧
    resolve (fun _ => 0) (fun x : Cell => if x = (0, 0) then some (some 4) else none) (1, 1) =
      generate (fun _ => 0) 1 1) :=
  ⟨⟨by decide, by decide⟩,
    claim_C3 (fun _ => 0) (fun _ => 1)
      (fun x : Cell => if x = (0, 0) then some (some 4) else none)
      (fun x : Cell => if x = (0, 0) then some (some 4) else none)
      (0, 0) (1, 1) (some 4) (by decide) (by decide)⟩

/-- C9: the baseline generator is deterministic — two evaluations of the
presence decision and value lookup at the same `(luck, i, j)` are identical —
and resolution of a cell is repeatable when the overlay is unchanged:
materializing or evicting any cell leaves the overlay, and hence every cell's
resolution, unchanged. -/
theorem claim_C9 (luck : LuckFn) (s : GameState) (c d : Cell) (i j : ℤ) :
    generate luck i j = generate luck i j ∧
    initialCacheValue luck i j = initialCacheValue luck i j ∧
    resolve luck (cellRendered luck s d).modifiedCaches c = resolve luck s.modifiedCaches c ∧
    resolve luck (removeCell s d).modifiedCaches c = resolve luck s.modifiedCaches c := by
  refine ⟨rfl, rfl, ?_, ?_⟩
  · rw [cellRendered_modifiedCaches]
  · rw [removeCell_modifiedCaches]

/-- C2: evicting a cell's materialized record never modifies the mutation
overlay (first conjunct, for every state and cell), and after a successful
pickup the evict/re-materialize round trip resolves the cell to the
post-pickup overlay state — explicitly empty, hence no cache marker — never
reverting to the procedurally generated baseline. -/
theorem claim_C2 (luck : LuckFn) (s t : GameState) (player c d : Cell) (v : ℤ)
    (hinv : s.inventory = none)
    (hcache : s.caches c = some v)
    (hdist : cellDistance player c ≤ PROXIMITY_CELLS) :
    (removeCell t d).modifiedCaches = t.modifiedCaches ∧
    (removeCell (pickupRequest s player c).2 c).modifiedCaches =
      (pickupRequest s player c).2.modifiedCaches ∧
    resolve luck (removeCell (pickupRequest s player c).2 c).modifiedCaches c = none ∧
    (cellRendered luck (removeCell (pickupRequest s player c).2 c) c).caches c = none := by
  have hpick : (pickupRequest s player c).2 =
      { s with
        caches := delCache s.caches c
        inventory := some v
        modifiedCaches := setOverlay s.modifiedCaches c none } := by
    unfold pickupRequest
    rw [hcache]
    dsimp only
    rw [if_pos hdist, if_pos hinv]
  have hover : (pickupRequest s player c).2.modifiedCaches c = some none := by
    rw [hpick]
    show setOverlay s.modifiedCaches c none c = some none
    unfold setOverlay
    rw [if_pos rfl]
  refine ⟨rfl, rfl, ?_, ?_⟩
  · unfold resolve
    rw [removeCell_modifiedCaches, hover]
  · have hnotmem : c ∉ (removeCell (pickupRequest s player c).2 c).cellRecords :=
      Finset.not_mem_erase c _
    unfold cellRendered
    rw [if_neg hnotmem]
    show (drawCellState luck (removeCell (pickupRequest s player c).2 c) c).caches c = none
    unfold drawCellState
    have hres : resolve luck (removeCell (pickupRequest s player c).2 c).modifiedCaches c
        = none := by
      unfold resolve
      rw [removeCell_modifiedCaches, hover]
    rw [hres]
    show delCache (pickupRequest s player c).2.caches c c = none
    unfold delCache
    rw [if_pos rfl]

theorem claim_C2_witness :
    (({ inventory := none
        modifiedCaches := fun _ => none
        caches := fun x : Cell => if x = (0, 0) then some 2 else none
        cellRecords := ∅
        hasCrafted := false } : GameState).inventory = none ∧
      ({ inventory := none
         modifiedCaches := fun _ => none
         caches := fun x : Cell => if x = (0, 0) then some 2 else none
         cellRecords := ∅
         hasCrafted := false } : GameState).caches (0, 0) = some 2 ∧
      cellDistance (0, 0) (0, 0) ≤ PROXIMITY_CELLS) ∧
    (removeCell
        { inventory := none
          modifiedCaches := fun _ => none
          caches := fun _ => none
          cellRecords := ∅
          hasCrafted := true } (3, 3)).modifiedCaches =
      ({ inventory := none
         modifiedCaches := fun _ => none
         caches := fun _ => none
         cellRecords := ∅
         hasCrafted := true } : GameState).modifiedCaches ∧
    (removeCell
        (pickupRequest
          { inventory := none
            modifiedCaches := fun _ => none
            caches := fun x : Cell => if x = (0, 0) then some 2 else none
            cellRecords := ∅
            hasCrafted := false } (0, 0) (0, 0)).2 (0, 0)).modifiedCaches =
      (pickupRequest
          { inventory := none
            modifiedCaches := fun _ => none
            caches := fun x : Cell => if x = (0, 0) then some 2 else none
            cellRecords := ∅
            hasCrafted := false } (0, 0) (0, 0)).2.modifiedCaches ∧
    resolve (fun _ => 0)
        (removeCell
          (pickupRequest
            { inventory := none
              modifiedCaches := fun _ => none
              caches := fun x : Cell => if x = (0, 0) then some 2 else none
              cellRecords := ∅
              hasCrafted := false } (0, 0) (0, 0)).2 (0, 0)).modifiedCaches (0, 0) = none ∧
    (cellRendered (fun _ => 0)
        (removeCell
          (pickupRequest
            { inventory := none
              modifiedCaches := fun _ => none
              caches := fun x : Cell => if x = (0, 0) then some 2 else none
              cellRecords := ∅
              hasCrafted := false } (0, 0) (0, 0)).2 (0, 0)) (0, 0)).caches (0, 0) = none :=
  ⟨⟨rfl, by decide, by decide⟩,
    claim_C2 (fun _ => 0)
      { inventory := none
        modifiedCaches := fun _ => none
        caches := fun x : Cell => if x = (0, 0) then some 2 else none
        cellRecords := ∅
        hasCrafted := false }
      { inventory := none
        modifiedCaches := fun _ => none
        caches := fun _ => none
        cellRecords := ∅
        hasCrafted := true }
      (0, 0) (0, 0) (3, 3) 2 rfl (by decide) (by decide)⟩

/-- C1: when the player carries `v`, the target cell resolves to a resident
cache of the same value `v`, and the Chebyshev distance from player to target
is within the proximity radius, a place request succeeds: the overlay entry
becomes `Token(2 * v)`, the inventory becomes empty, the win flag is exactly
the old flag or-ed with `2 * v ≥ WIN_THRESHOLD` — so it flips to true iff the
doubled value reaches the threshold and it was not already set — and once
true it stays true across any further sequence of operations. -/
theorem claim_C1 (luck : LuckFn) (s : GameState) (player c : Cell) (v : ℤ)
    (acts : List Action)
    (hinv : s.inventory = some v)
    (hcache : s.caches c = some v)
    (hres : resolve luck s.modifiedCaches c = some v)
    (hdist : cellDistance player c ≤ PROXIMITY_CELLS) :
    (placeRequest s player c).1 = none ∧
    (placeRequest s player c).2.modifiedCaches c = some (some (2 * v)) ∧
    (placeRequest s player c).2.inventory = none ∧
    (placeRequest s player c).2.hasCrafted =
      (s.hasCrafted || decide (WIN_THRESHOLD ≤ 2 * v)) ∧
    (((placeRequest s player c).2.hasCrafted = true ∧ s.hasCrafted = false) ↔
      (WIN_THRESHOLD ≤ 2 * v ∧ s.hasCrafted = false)) ∧
    ((placeRequest s player c).2.hasCrafted = true →
      (runActions luck (placeRequest s player c).2 acts).hasCrafted = true) := by
  have hplace : placeRequest s player c =
      (none,
        { s with
          caches := setCache s.caches c (v * 2)
          modifiedCaches := setOverlay s.modifiedCaches c (some (v * 2))
          inventory := none
          hasCrafted :=
            if s.hasCrafted = false ∧ WIN_THRESHOLD ≤ v * 2 then true
            else s.hasCrafted }) := by
    unfold placeRequest
    rw [hcache]
    dsimp only
    rw [if_neg (not_lt.mpr hdist), hinv]
    dsimp only
    rw [if_pos rfl]
  rw [hplace]
  have hcraft :
      (if s.hasCrafted = false ∧ WIN_THRESHOLD ≤ v * 2 then true else s.hasCrafted) =
        (s.hasCrafted || decide (WIN_THRESHOLD ≤ 2 * v)) := by
    cases hb : s.hasCrafted with
    | false =>
      by_cases hw : WIN_THRESHOLD ≤ v * 2
      · have hw2 : WIN_THRESHOLD ≤ 2 * v := by rw [mul_comm]; exact hw
        rw [if_pos ⟨rfl, hw⟩]
        simp [hw2]
      · have hw2 : ¬WIN_THRESHOLD ≤ 2 * v := by rw [mul_comm]; exact hw
        rw [if_neg (by intro hcon; exact hw hcon.2)]
        simp [hb, hw2]
    | true =>
      rw [if_neg (by simp [hb])]
      simp [hb]
  refine ⟨rfl, ?_, rfl, ?_, ?_, ?_⟩
  · show setOverlay s.modifiedCaches c (some (v * 2)) c = some (some (2 * v))
    unfold setOverlay
    rw [if_pos rfl, mul_comm v 2]
  · exact hcraft
  · show ((if s.hasCrafted = false ∧ WIN_THRESHOLD ≤ v * 2 then true else s.hasCrafted) = true ∧
        s.hasCrafted = false) ↔ (WIN_THRESHOLD ≤ 2 * v ∧ s.hasCrafted = false)
    rw [hcraft]
    constructor
    · rintro ⟨h1, h2⟩
      rw [h2] at h1
      simp only [Bool.false_or, decide_eq_true_eq] at h1
      exact ⟨h1, h2⟩
    · rintro ⟨h1, h2⟩
      rw [h2]
      simp [h1]
  · intro h
    exact hasCrafted_runActions luck acts _ h

/-- A concrete state used to evaluate the place-success theorem: the player
carries a 3 and stands on a cell holding a resident cache of value 3. -/
def placeDemoState : GameState :=
  { inventory := some 3
    modifiedCaches := fun x : Cell => if x = (0, 0) then some (some 3) else none
    caches := fun x : Cell => if x = (0, 0) then some 3 else none
    cellRecords := ∅
    hasCrafted := false }

theorem claim_C1_witness :
    (placeDemoState.inventory = some 3 ∧
      placeDemoState.caches (0, 0) = some 3 ∧
      resolve (fun _ => 0) placeDemoState.modifiedCaches (0, 0) = some 3 ∧
      cellDistance (0, 0) (0, 0) ≤ PROXIMITY_CELLS) ∧
    ((placeRequest placeDemoState (0, 0) (0, 0)).1 = none ∧
      (placeRequest placeDemoState (0, 0) (0, 0)).2.modifiedCaches (0, 0) =
        some (some (2 * 3)) ∧
      (placeRequest placeDemoState (0, 0) (0, 0)).2.inventory = none ∧
      (placeRequest placeDemoState (0, 0) (0, 0)).2.hasCrafted =
        (placeDemoState.hasCrafted || decide (WIN_THRESHOLD ≤ 2 * 3)) ∧
      (((placeRequest placeDemoState (0, 0) (0, 0)).2.hasCrafted = true ∧
          placeDemoState.hasCrafted = false) ↔
        (WIN_THRESHOLD ≤ 2 * 3 ∧ placeDemoState.hasCrafted = false)) ∧
      ((placeRequest placeDemoState (0, 0) (0, 0)).2.hasCrafted = true →
        (runActions (fun _ => 0) (placeRequest placeDemoState (0, 0) (0, 0)).2
            [Action.evict (0, 0)]).hasCrafted = true)) :=
  ⟨⟨rfl, by decide, by decide, by decide⟩,
    claim_C1 (fun _ => 0) placeDemoState (0, 0) (0, 0) 3 [Action.evict (0, 0)]
      rfl (by decide) (by decide) (by decide)⟩

/-- A concrete state refuting the universally quantified form of the
single-slot claim: the player carries a token and targets a cache two cells
away. -/
def carryingFarState : GameState :=
  { inventory := some 1
    modifiedCaches := fun _ => none
    caches := fun x : Cell => if x = (2, 0) then some 1 else none
    cellRecords := ∅
    hasCrafted := false }

/-- C5, counterexample: with `inventory = Some 1`, a pickup request on a cell
at Chebyshev distance 2 is rejected with `TooFar 2`, not `AlreadyCarrying`,
so the claim that every pickup while carrying is rejected with
`AlreadyCarrying` fails on the code. -/
theorem claim_C5_cex :
    carryingFarState.inventory = some 1 ∧
    carryingFarState.caches (2, 0) = some 1 ∧
    (pickupRequest carryingFarState (0, 0) (2, 0)).1 = some (Reject.tooFar 2) ∧
    (pickupRequest carryingFarState (0, 0) (2, 0)).1 ≠ some Reject.alreadyCarrying := by
  refine ⟨rfl, by decide, by decide, by decide⟩

/-- C5, amended: with `inventory = Some(_)` a pickup request never succeeds
and always leaves the whole state (in particular the inventory and the
target's overlay entry and resolved content) unchanged; the rejection is
`AlreadyCarrying` precisely when the distance check passes and the target has
a materialized cache (otherwise it is `TooFar`, or `NoCacheHere` for a
cacheless target). -/
theorem claim_C5_amended (s : GameState) (player c : Cell) (v w : ℤ)
    (hinv : s.inventory = some v) :
    (pickupRequest s player c).1 ≠ none ∧
    (pickupRequest s player c).2 = s ∧
    (cellDistance player c ≤ PROXIMITY_CELLS → s.caches c = some w →
      (pickupRequest s player c).1 = some Reject.alreadyCarrying) := by
  have hne : s.inventory ≠ none := by rw [hinv]; exact Option.some_ne_none v
  unfold pickupRequest
  match hc : s.caches c with
  | none =>
    dsimp only
    refine ⟨by simp, rfl, ?_⟩
    intro _ hcon
    exact Option.noConfusion hcon
  | some u =>
    dsimp only
    by_cases hd : cellDistance player c ≤ PROXIMITY_CELLS
    · rw [if_pos hd, if_neg hne]
      exact ⟨by simp, rfl, fun _ _ => rfl⟩
    · rw [if_neg hd]
      refine ⟨by simp, rfl, ?_⟩
      intro hcon _
      exact absurd hcon hd

theorem claim_C5_amended_witness :
    carryingFarState.inventory = some 1 ∧
    ((pickupRequest carryingFarState (0, 0) (2, 0)).1 ≠ none ∧
      (pickupRequest carryingFarState (0, 0) (2, 0)).2 = carryingFarState ∧
      (cellDistance (0, 0) (2, 0) ≤ PROXIMITY_CELLS →
        carryingFarState.caches (2, 0) = some 1 →
        (pickupRequest carryingFarState (0, 0) (2, 0)).1 = some Reject.alreadyCarrying)) :=
  ⟨rfl, claim_C5_amended carryingFarState (0, 0) (2, 0) 1 1 rfl⟩

/-- C6: proximity authorization uses the inclusive Chebyshev distance
`max |playerI - cellI| |playerJ - cellJ|`; at distance exactly
`PROXIMITY_CELLS` a pickup request on a resident cache passes the proximity
check (and succeeds when the inventory is empty), while at distance
`PROXIMITY_CELLS + 1` it is rejected as `TooFar` carrying the measured
distance. -/
theorem claim_C6 (s : GameState) (player c : Cell) (v : ℤ)
    (hcache : s.caches c = some v) :
    cellDistance player c = max |player.1 - c.1| |player.2 - c.2| ∧
    (cellDistance player c = PROXIMITY_CELLS → s.inventory = none →
      (pickupRequest s player c).1 = none) ∧
    (cellDistance player c = PROXIMITY_CELLS + 1 →
      (pickupRequest s player c).1 = some (Reject.tooFar (cellDistance player c))) := by
  refine ⟨rfl, ?_, ?_⟩
  · intro hd hi
    unfold pickupRequest
    rw [hcache]
    dsimp only
    rw [if_pos (le_of_eq hd), if_pos hi]
  · intro hd
    have hfar : ¬cellDistance player c ≤ PROXIMITY_CELLS := by
      rw [hd]
      omega
    unfold pickupRequest
    rw [hcache]
    dsimp only
    rw [if_neg hfar]

/-- A concrete state for the proximity boundary: an empty-handed player and a
resident cache. -/
def emptyHandedState : GameState :=
  { inventory := none
    modifiedCaches := fun _ => none
    caches := fun x : Cell => if x = (1, 0) then some 2 else none
    cellRecords := ∅
    hasCrafted := false }

theorem claim_C6_witness :
    emptyHandedState.caches (1, 0) = some 2 ∧
    (cellDistance (0, 0) (1, 0) = max |(0 : ℤ) - 1| |(0 : ℤ) - 0| ∧
      (cellDistance (0, 0) (1, 0) = PROXIMITY_CELLS → emptyHandedState.inventory = none →
        (pickupRequest emptyHandedState (0, 0) (1, 0)).1 = none) ∧
      (cellDistance (0, 0) (1, 0) = PROXIMITY_CELLS + 1 →
        (pickupRequest emptyHandedState (0, 0) (1, 0)).1 =
          some (Reject.tooFar (cellDistance (0, 0) (1, 0))))) :=
  ⟨by decide, claim_C6 emptyHandedState (0, 0) (1, 0) 2 (by decide)⟩

/-- A concrete state refuting the universally quantified form of the
mismatch claim: the player carries a 2 and targets a resident cache of value
3 two cells away. -/
def mismatchFarState : GameState :=
  { inventory := some 2
    modifiedCaches := fun _ => none
    caches := fun x : Cell => if x = (2, 0) then some 3 else none
    cellRecords := ∅
    hasCrafted := false }

/-- C7, counterexample: carrying value 2 against a resident cache of value 3
at Chebyshev distance 2, the place request is rejected with `TooFar 2`, not
`ValueMismatch`, so the claim that every such request is rejected with
`ValueMismatch` fails on the code. -/
theorem claim_C7_cex :
    mismatchFarState.inventory = some 2 ∧
    mismatchFarState.caches (2, 0) = some 3 ∧
    (placeRequest mismatchFarState (0, 0) (2, 0)).1 = some (Reject.tooFar 2) ∧
    (placeRequest mismatchFarState (0, 0) (2, 0)).1 ≠ some Reject.valueMismatch := by
  refine ⟨rfl, by decide, by decide, by decide⟩

/-- C7, amended: when the player carries `v` and the target cell resolves to
a resident cache of a different value `w ≠ v`, a place request never succeeds
and leaves the whole state (inventory, cache value, overlay) unchanged; the
rejection is `ValueMismatch` precisely when the proximity check passes
(otherwise it is `TooFar`). -/
theorem claim_C7_amended (luck : LuckFn) (s : GameState) (player c : Cell) (v w : ℤ)
    (hinv : s.inventory = some v)
    (hcache : s.caches c = some w)
    (hres : resolve luck s.modifiedCaches c = some w)
    (hne : v ≠ w) :
    (placeRequest s player c).1 ≠ none ∧
    (placeRequest s player c).2 = s ∧
    (cellDistance player c ≤ PROXIMITY_CELLS →
      (placeRequest s player c).1 = some Reject.valueMismatch) := by
  unfold placeRequest
  rw [hcache]
  dsimp only
  by_cases hd : PROXIMITY_CELLS < cellDistance player c
  · rw [if_pos hd]
    refine ⟨by simp, rfl, ?_⟩
    intro hcon
    exact absurd hd (not_lt.mpr hcon)
  · rw [if_neg hd, hinv]
    dsimp only
    rw [if_neg hne]
    exact ⟨by simp, rfl, fun _ => rfl⟩

/-- A concrete in-range mismatch: carrying 2 on top of a resident cache of
value 3. -/
def mismatchNearState : GameState :=
  { inventory := some 2
    modifiedCaches := fun x : Cell => if x = (0, 0) then some (some 3) else none
    caches := fun x : Cell => if x = (0, 0) then some 3 else none
    cellRecords := ∅
    hasCrafted := false }

theorem claim_C7_amended_witness :
    (mismatchNearState.inventory = some 2 ∧
      mismatchNearState.caches (0, 0) = some 3 ∧
      resolve (fun _ => 0) mismatchNearState.modifiedCaches (0, 0) = some 3 ∧
      (2 : ℤ) ≠ 3) ∧
    ((placeRequest mismatchNearState (0, 0) (0, 0)).1 ≠ none ∧
      (placeRequest mismatchNearState (0, 0) (0, 0)).2 = mismatchNearState ∧
      (cellDistance (0, 0) (0, 0) ≤ PROXIMITY_CELLS →
        (placeRequest mismatchNearState (0, 0) (0, 0)).1 = some Reject.valueMismatch)) :=
  ⟨⟨rfl, by decide, by decide, by decide⟩,
    claim_C7_amended (fun _ => 0) mismatchNearState (0, 0) (0, 0) 2 3
      rfl (by decide) (by decide) (by decide)⟩

/-- A concrete state refuting the claim that no user-initiated operation
creates a cache at a NoCache cell: the player stands on an explicitly
emptied cell and carries a 3. -/
def emptyCellCarryState : GameState :=
  { inventory := some 3
    modifiedCaches := fun x : Cell => if x = (0, 0) then some none else none
    caches := fun _ => none
    cellRecords := ∅
    hasCrafted := false }

/-- C4, counterexample: the drop action that `drawCell` offers on an
explicitly-emptied cell is a user-initiated operation that creates a cache
at a cell whose resolved content is NoCache: starting from an
`ExplicitlyEmpty` overlay entry (resolved content none), the drop succeeds
and afterwards the cell resolves to a cache of the carried value — the
overlay entry transitioned from `ExplicitlyEmpty` to `Token(3)`. -/
theorem claim_C4_cex :
    emptyCellCarryState.modifiedCaches (0, 0) = some none ∧
    resolve (fun _ => 1) emptyCellCarryState.modifiedCaches (0, 0) = none ∧
    emptyCellCarryState.inventory = some 3 ∧
    (dropRequest emptyCellCarryState (0, 0) (0, 0)).1 = none ∧
    (dropRequest emptyCellCarryState (0, 0) (0, 0)).2.modifiedCaches (0, 0) =
      some (some 3) ∧
    resolve (fun _ => 1)
      (dropRequest emptyCellCarryState (0, 0) (0, 0)).2.modifiedCaches (0, 0) = some 3 := by
  refine ⟨by decide, by decide, rfl, by decide, by decide, by decide⟩

/-- C4, amended: a place request never creates a cache from nothing — on a
cell without a resident cache it is rejected (`NoCacheHere`, the handler is
only offered on existing resident caches) and leaves the state unchanged —
but the drop action offered on an `ExplicitlyEmpty` cell does create one:
within proximity and carrying `v` it succeeds and rewrites the overlay entry
from `ExplicitlyEmpty` to `Token(v)`. -/
theorem claim_C4_amended (s : GameState) (player c : Cell) (v : ℤ)
    (hnocache : s.caches c = none)
    (hempty : s.modifiedCaches c = some none)
    (hinv : s.inventory = some v)
    (hdist : cellDistance player c ≤ PROXIMITY_CELLS) :
    ((placeRequest s player c).1 = some Reject.noCacheHere ∧
      (placeRequest s player c).2 = s) ∧
    ((dropRequest s player c).1 = none ∧
      (dropRequest s player c).2.modifiedCaches c = some (some v)) := by
  constructor
  · unfold placeRequest
    rw [hnocache]
    exact ⟨rfl, rfl⟩
  · unfold dropRequest
    rw [if_neg (not_lt.mpr hdist), hinv]
    dsimp only
    refine ⟨rfl, ?_⟩
    show setOverlay s.modifiedCaches c (some v) c = some (some v)
    unfold setOverlay
    rw [if_pos rfl]

theorem claim_C4_amended_witness :
    (emptyCellCarryState.caches (0, 0) = none ∧
      emptyCellCarryState.modifiedCaches (0, 0) = some none ∧
      emptyCellCarryState.inventory = some 3 ∧
      cellDistance (0, 0) (0, 0) ≤ PROXIMITY_CELLS) ∧
    (((placeRequest emptyCellCarryState (0, 0) (0, 0)).1 = some Reject.noCacheHere ∧
        (placeRequest emptyCellCarryState (0, 0) (0, 0)).2 = emptyCellCarryState) ∧
      ((dropRequest emptyCellCarryState (0, 0) (0, 0)).1 = none ∧
        (dropRequest emptyCellCarryState (0, 0) (0, 0)).2.modifiedCaches (0, 0) =
          some (some 3))) :=
  ⟨⟨rfl, by decide, rfl, by decide⟩,
    claim_C4_amended emptyCellCarryState (0, 0) (0, 0) 3 rfl (by decide) rfl (by decide)⟩

/-- C8: after a viewport update the set of rendered records equals exactly
the set of cell identities whose quantized coordinates lie inside the floored
viewport bounds (membership characterized below; a `Finset` holds at most one
record per cell); the entered and left lists are exactly the two asymmetric
differences of the previous and new visible sets; they are disjoint; and no
cell lying in both the previous and the new set is created or destroyed. -/
theorem claim_C8 (prev : Finset Cell) (south north west east : ℚ) (i j : ℤ) :
    (updateVisibleCells prev south north west east).1 =
      wantedCells south north west east ∧
    (updateVisibleCells prev south north west east).2.1 =
      wantedCells south north west east \ prev ∧
    (updateVisibleCells prev south north west east).2.2 =
      prev \ wantedCells south north west east ∧
    (updateVisibleCells prev south north west east).2.1 ∩
      (updateVisibleCells prev south north west east).2.2 = ∅ ∧
    ((i, j) ∈ (updateVisibleCells prev south north west east).1 ↔
      (axisFloor CLASSROOM_LAT south ≤ i ∧ i ≤ axisFloor CLASSROOM_LAT north ∧
        axisFloor CLASSROOM_LNG west ≤ j ∧ j ≤ axisFloor CLASSROOM_LNG east)) ∧
    (prev ∩ wantedCells south north west east) ∩
      (updateVisibleCells prev south north west east).2.1 = ∅ ∧
    (prev ∩ wantedCells south north west east) ∩
      (updateVisibleCells prev south north west east).2.2 = ∅ := by
  have h1 : (updateVisibleCells prev south north west east).1 =
      wantedCells south north west east := by
    show (prev ∪ wantedCells south north west east) \
        ((prev ∪ wantedCells south north west east) \ wantedCells south north west east) =
      wantedCells south north west east
    ext x
    simp only [Finset.mem_sdiff, Finset.mem_union]
    tauto
  have h3 : (updateVisibleCells prev south north west east).2.2 =
      prev \ wantedCells south north west east := by
    show (prev ∪ wantedCells south north west east) \ wantedCells south north west east =
      prev \ wantedCells south north west east
    ext x
    simp only [Finset.mem_sdiff, Finset.mem_union]
    tauto
  refine ⟨h1, rfl, h3, ?_, ?_, ?_, ?_⟩
  · show (wantedCells south north west east \ prev) ∩
        ((prev ∪ wantedCells south north west east) \ wantedCells south north west east) = ∅
    ext x
    simp only [Finset.mem_inter, Finset.mem_sdiff, Finset.mem_union, Finset.not_mem_empty,
      iff_false]
    tauto
  · rw [h1]
    unfold wantedCells
    simp only [Finset.mem_product, Finset.mem_Icc]
    tauto
  · show (prev ∩ wantedCells south north west east) ∩
        (wantedCells south north west east \ prev) = ∅
    ext x
    simp only [Finset.mem_inter, Finset.mem_sdiff, Finset.not_mem_empty, iff_false]
    tauto
  · rw [h3]
    ext x
    simp only [Finset.mem_inter, Finset.mem_sdiff, Finset.not_mem_empty, iff_false]
    tauto

theorem round_of_half_le_fract (q : ℚ) (h : 1 / 2 ≤ Int.fract q) :
    round q = Int.floor q + 1 := by
  have h1 : Int.fract q < 1 := Int.fract_lt_one q
  have h2 : (Int.floor q : ℚ) + Int.fract q = q := Int.floor_add_fract q
  rw [round_eq]
  rw [Int.floor_eq_iff]
  constructor
  · push_cast
    linarith
  · push_cast
    linarith

/-- C10: player-cell quantization and viewport/rectangle quantization
disagree.  `latLngToCell` rounds `(position - origin) / TILE_DEGREES` to the
nearest integer on each axis, while the drawn rectangle for index `i` spans
`[origin + i * TILE_DEGREES, origin + (i + 1) * TILE_DEGREES]` and
`updateVisibleCells` floors the bounds; so for any position whose fractional
offset within its tile is at least half a tile, the rounded player index
exceeds by one the floored index of the rectangle that contains the
position — on the latitude axis here, and symmetrically on the longitude
axis since `latLngToCell` applies the same per-axis quantization to both. -/
theorem claim_C10 (lat lng pos : ℚ)
    (hfr : 1 / 2 ≤ Int.fract ((pos - CLASSROOM_LAT) / TILE_DEGREES)) :
    latLngToCell lat lng = (axisCell CLASSROOM_LAT lat, axisCell CLASSROOM_LNG lng) ∧
    axisCell CLASSROOM_LAT pos = axisFloor CLASSROOM_LAT pos + 1 ∧
    cellBoundsContain CLASSROOM_LAT (axisFloor CLASSROOM_LAT pos) pos := by
  have htile : (0 : ℚ) < TILE_DEGREES := by norm_num [TILE_DEGREES]
  have hmul : (pos - CLASSROOM_LAT) / TILE_DEGREES * TILE_DEGREES = pos - CLASSROOM_LAT :=
    div_mul_cancel₀ _ (ne_of_gt htile)
  refine ⟨rfl, round_of_half_le_fract _ hfr, ?_, ?_⟩
  · have hlo : (Int.floor ((pos - CLASSROOM_LAT) / TILE_DEGREES) : ℚ) ≤
        (pos - CLASSROOM_LAT) / TILE_DEGREES := Int.floor_le _
    have := mul_le_mul_of_nonneg_right hlo (le_of_lt htile)
    rw [hmul] at this
    unfold axisFloor
    linarith
  · have hhi : (pos - CLASSROOM_LAT) / TILE_DEGREES <
        (Int.floor ((pos - CLASSROOM_LAT) / TILE_DEGREES) : ℚ) + 1 :=
      Int.lt_floor_add_one _
    have := mul_le_mul_of_nonneg_right (le_of_lt hhi) (le_of_lt htile)
    rw [hmul] at this
    unfold axisFloor
    push_cast
    linarith

theorem claim_C10_witness :
    (1 : ℚ) / 2 ≤
      Int.fract ((CLASSROOM_LAT + 1 / 20000 - CLASSROOM_LAT) / TILE_DEGREES) ∧
    (latLngToCell 0 0 = (axisCell CLASSROOM_LAT 0, axisCell CLASSROOM_LNG 0) ∧
      axisCell CLASSROOM_LAT (CLASSROOM_LAT + 1 / 20000) =
        axisFloor CLASSROOM_LAT (CLASSROOM_LAT + 1 / 20000) + 1 ∧
      cellBoundsContain CLASSROOM_LAT
        (axisFloor CLASSROOM_LAT (CLASSROOM_LAT + 1 / 20000))
        (CLASSROOM_LAT + 1 / 20000)) :=
  ⟨by norm_num [Int.fract, CLASSROOM_LAT, TILE_DEGREES],
    claim_C10 0 0 (CLASSROOM_LAT + 1 / 20000)
      (by norm_num [Int.fract, CLASSROOM_LAT, TILE_DEGREES])⟩

end D3Game
